import Mathlib

/-!
Shallow embedding of `hunyuan3d_runner.py` (Hunyuan3D-2.1 Docker pipeline
runner).  The external world (container runtime, GPU probe, image registry,
the container's own execution) is modelled by a record `Env` of exit
statuses and outputs of the external commands the script invokes; the
host filesystem is modelled by `FS`, an association list of file paths to
their contents (contents abstract bytes together with metadata) plus a
list of existing directories.  Each Python method becomes a pure function;
the orchestration functions additionally return the list of step events
they performed, so that ordering and reachability of steps can be stated.
-/

namespace Hunyuan3D

/-- A filesystem path, as its list of components. -/
abbrev FsPath := List String

/-- Host filesystem model: files (path to contents-plus-metadata, later
entries shadowed by earlier ones) and existing directories. -/
structure FS where
  files : List (FsPath × String)
  dirs : List FsPath
deriving DecidableEq, Repr

/-- Outcomes of the external commands the script shells out to:
`docker --version`, `nvidia-smi`, `docker images -q`, `docker pull`,
and `docker run`, plus whether the container wrote the output artifact.
`dockerVersionOk` means the `docker --version` invocation ran and exited
zero; `imagesCmdOk` means the `docker images -q` invocation ran and
exited zero; `dockerBinaryPresent` means the `docker` executable exists,
so that launching it does not raise FileNotFoundError.  A version query
can only exit zero when the binary exists, which is the recorded
invariant `binaryPresent_of_versionOk`. -/
structure Env where
  dockerVersionOk : Bool
  gpuOk : Bool
  imagesCmdOk : Bool
  imagesStdout : String
  pullOk : Bool
  containerExitZero : Bool
  outputCreated : Bool
  outputContents : String
  dockerBinaryPresent : Bool
  binaryPresent_of_versionOk : dockerVersionOk = true → dockerBinaryPresent = true

/-- Look up the contents of a file; first binding wins. -/
def lookupFile : List (FsPath × String) → FsPath → Option String
  | [], _ => none
  | (q, c) :: rest, p => if q = p then some c else lookupFile rest p

/-- Write a file (overwriting any previous binding, by shadowing). -/
def setFile (l : List (FsPath × String)) (p : FsPath) (c : String) :
    List (FsPath × String) :=
  (p, c) :: l

/-- `Path.exists()`: the path is a file or a directory. -/
def path_exists (fs : FS) (p : FsPath) : Bool :=
  (lookupFile fs.files p).isSome || decide (p ∈ fs.dirs)

/-- All nonempty prefixes of a path: the directories that
`mkdir(parents=True)` ensures exist (the path itself included). -/
def ancestors : FsPath → List FsPath
  | [] => []
  | x :: xs => [x] :: (ancestors xs).map (fun p => x :: p)

/-- `setup_data_directory`: `self.data_dir.mkdir(parents=True, exist_ok=True)`:
creates the directory and every missing parent; no error if present. -/
def setup_data_directory (fs : FS) (d : FsPath) : FS :=
  { fs with dirs := fs.dirs ++ (ancestors d).filter (fun p => decide (p ∉ fs.dirs)) }

/-- Python exceptions the script can raise. -/
inductive PyError
  | fileNotFound
  | isADirectory
  | calledProcessError
  | runtimeErrorOutputMissing
deriving DecidableEq, Repr

/-- `check_docker_available`: `docker --version` with check=True; both
CalledProcessError and FileNotFoundError are caught and yield False. -/
def check_docker_available (env : Env) : Bool := env.dockerVersionOk

/-- `check_gpu_available`: `nvidia-smi`; failure is only a warning. -/
def check_gpu_available (env : Env) : Bool := env.gpuOk

/-- `pull_docker_image`: `docker pull`; True iff it exits zero. -/
def pull_docker_image (env : Env) : Bool := env.pullOk

/-- The pipeline steps, recorded as a trace by the orchestration. -/
inductive Event
  | checkDocker
  | checkGpu
  | checkImage
  | pullImage
  | setupDir
  | copyInput
  | generateShape
deriving DecidableEq, Repr

/-- Truthiness of `s.strip()` in Python: after removing leading and
trailing whitespace the string is nonempty, i.e. some character of `s`
is not whitespace. -/
def strippedNonempty (s : String) : Bool :=
  s.data.any (fun ch => !ch.isWhitespace)

/-- `check_docker_image_exists`: run `docker images -q <image>`; if the
listing command itself fails, the CalledProcessError is caught and the
method returns False; if the stripped stdout is nonempty the image is
local; otherwise fall back to `pull_docker_image`. -/
def check_docker_image_exists (env : Env) : Bool × List Event :=
  if env.imagesCmdOk then
    if strippedNonempty env.imagesStdout then
      (true, [Event.checkImage])
    else
      (pull_docker_image env, [Event.checkImage, Event.pullImage])
  else
    (false, [Event.checkImage])

/-- `copy_input_image`: raise FileNotFoundError when the source path does
not exist; otherwise `shutil.copy2` it to `data_dir / "input.png"` and
return the target path.  A source path that exists but is a directory
makes `shutil.copy2` raise (IsADirectoryError). -/
def copy_input_image (fs : FS) (d : FsPath) (input : FsPath) :
    Except PyError (FS × FsPath) :=
  if path_exists fs input then
    match lookupFile fs.files input with
    | some c =>
      Except.ok ({ fs with files := setFile fs.files (d ++ ["input.png"]) c },
        d ++ ["input.png"])
    | none => Except.error PyError.isADirectory
  else
    Except.error PyError.fileNotFound

/-- The output artifact's path: `data_dir / "output_shape.glb"`. -/
def output_path (d : FsPath) : FsPath := d ++ ["output_shape.glb"]

/-- `generate_shape`: run the container (check=True, so a nonzero exit
raises CalledProcessError, re-raised by the except clause); on zero exit,
check that `output_shape.glb` now exists on the host and raise
RuntimeError("Output file was not created") if it does not. -/
def generate_shape (env : Env) (fs : FS) (d : FsPath) :
    FS × Except PyError FsPath :=
  let fs1 := if env.outputCreated then
      { fs with files := setFile fs.files (output_path d) env.outputContents }
    else fs
  if env.containerExitZero then
    if path_exists fs1 (output_path d) then
      (fs1, Except.ok (output_path d))
    else
      (fs1, Except.error PyError.runtimeErrorOutputMissing)
  else
    (fs1, Except.error PyError.calledProcessError)

/-- How a call to `run` ends: `sys.exit(code)`, an uncaught exception,
or success with the output artifact's path. -/
inductive RunOutcome
  | sysExit (code : Nat)
  | raised (e : PyError)
  | success (out : FsPath)
deriving DecidableEq, Repr

/-- `Hunyuan3DRunner.run`: the six-step pipeline; returns its outcome, the
trace of steps actually performed, and the final filesystem.  Here the
image check is only reached after `check_docker_available` returned True,
so by `binaryPresent_of_versionOk` the docker binary is present and the
listing call inside `check_docker_image_exists` cannot raise
FileNotFoundError on this path. -/
def run (env : Env) (fs : FS) (d : FsPath) (input : FsPath) :
    RunOutcome × List Event × FS :=
  if !check_docker_available env then
    (RunOutcome.sysExit 1, [Event.checkDocker], fs)
  else
    let imgRes := check_docker_image_exists env
    let tr0 := [Event.checkDocker, Event.checkGpu] ++ imgRes.2
    if !imgRes.1 then
      (RunOutcome.sysExit 1, tr0, fs)
    else
      let fs1 := setup_data_directory fs d
      let tr1 := tr0 ++ [Event.setupDir, Event.copyInput]
      match copy_input_image fs1 d input with
      | Except.error e => (RunOutcome.raised e, tr1, fs1)
      | Except.ok (fs2, _) =>
        let tr2 := tr1 ++ [Event.generateShape]
        match generate_shape env fs2 d with
        | (fs3, Except.error e) => (RunOutcome.raised e, tr2, fs3)
        | (fs3, Except.ok out) => (RunOutcome.success out, tr2, fs3)

/-- `main` without `--test`: `runner.run(...)` inside try/except Exception;
an exception prints and exits 1; `sys.exit(k)` raised inside `run` is a
SystemExit, not an Exception, so it propagates and the process exits with
`k`; otherwise the script finishes with exit code 0. -/
def main_normal (env : Env) (fs : FS) (d : FsPath) (input : FsPath) :
    Nat × List Event × FS :=
  match run env fs d input with
  | (RunOutcome.success _, tr, fs') => (0, tr, fs')
  | (RunOutcome.sysExit k, tr, fs') => (k, tr, fs')
  | (RunOutcome.raised _, tr, fs') => (1, tr, fs')

/-- `main` with `--test`: run the Docker check, GPU check, image check,
directory setup and an input-existence check, print a summary, and return
normally (so the process exits 0) without ever calling `generate_shape`.
The image check is reached even when the Docker check failed; when the
`docker` binary is absent, the `subprocess.run(["docker", "images", ...])`
call inside it raises FileNotFoundError, which `check_docker_image_exists`
does not catch (its only handler is for CalledProcessError) and the test
branch of `main` has no try/except either, so the process dies with a
traceback and exit code 1 before `setup_data_directory` runs. -/
def main_test (env : Env) (fs : FS) (d : FsPath) (input : FsPath) :
    Nat × List Event × FS :=
  let dockerOk := check_docker_available env
  let gpu := check_gpu_available env
  if env.dockerBinaryPresent then
    let imgRes := check_docker_image_exists env
    let fs1 := setup_data_directory fs d
    let inputOk := path_exists fs1 input
    let _ := (dockerOk, gpu, inputOk)
    (0, [Event.checkDocker, Event.checkGpu] ++ imgRes.2 ++ [Event.setupDir], fs1)
  else
    let _ := (dockerOk, gpu)
    (1, [Event.checkDocker, Event.checkGpu, Event.checkImage], fs)

/-! ### Helper lemmas -/

theorem mem_ancestors_length {p d : FsPath} (h : p ∈ ancestors d) :
    p.length ≤ d.length := by
  induction d generalizing p with
  | nil => simp [ancestors] at h
  | cons x xs ih =>
    simp only [ancestors, List.mem_cons, List.mem_map] at h
    rcases h with h | ⟨q, hq, rfl⟩
    · subst h; simp
    · simpa using Nat.succ_le_succ (ih hq)

theorem self_mem_ancestors {d : FsPath} (h : d ≠ []) : d ∈ ancestors d := by
  induction d with
  | nil => exact absurd rfl h
  | cons x xs ih =>
    by_cases hxs : xs = []
    · subst hxs; simp [ancestors]
    · simp only [ancestors, List.mem_cons, List.mem_map]
      exact Or.inr ⟨xs, ih hxs, rfl⟩

theorem setup_files (fs : FS) (d : FsPath) :
    (setup_data_directory fs d).files = fs.files := rfl

theorem mem_setup_dirs (fs : FS) (d : FsPath) (p : FsPath) :
    p ∈ (setup_data_directory fs d).dirs ↔ p ∈ fs.dirs ∨ p ∈ ancestors d := by
  simp only [setup_data_directory, List.mem_append, List.mem_filter,
    decide_eq_true_eq]
  constructor
  · rintro (h | ⟨h, _⟩)
    · exact Or.inl h
    · exact Or.inr h
  · rintro (h | h)
    · exact Or.inl h
    · by_cases hp : p ∈ fs.dirs
      · exact Or.inl hp
      · exact Or.inr ⟨h, hp⟩

theorem ancestors_sub_setup_dirs (fs : FS) (d : FsPath) {p : FsPath}
    (h : p ∈ ancestors d) : p ∈ (setup_data_directory fs d).dirs :=
  (mem_setup_dirs fs d p).2 (Or.inr h)

theorem setup_idem (fs : FS) (d : FsPath) :
    setup_data_directory (setup_data_directory fs d) d =
      setup_data_directory fs d := by
  unfold setup_data_directory
  congr 1
  have hnil : (ancestors d).filter
      (fun p => decide (p ∉ (setup_data_directory fs d).dirs)) = [] := by
    refine List.filter_eq_nil_iff.mpr ?_
    intro p hp
    simp [ancestors_sub_setup_dirs fs d hp]
  simpa [setup_data_directory] using congrArg (fs.dirs ++
    (ancestors d).filter (fun p => decide (p ∉ fs.dirs)) ++ ·) hnil

theorem lookup_setFile_self (l : List (FsPath × String)) (p : FsPath)
    (c : String) : lookupFile (setFile l p c) p = some c := by
  simp [setFile, lookupFile]

theorem lookup_setFile_ne (l : List (FsPath × String)) {p q : FsPath}
    (c : String) (h : p ≠ q) : lookupFile (setFile l p c) q = lookupFile l q := by
  simp [setFile, lookupFile, h]

theorem img_trace_cases (env : Env) :
    (check_docker_image_exists env).2 = [Event.checkImage] ∨
      (check_docker_image_exists env).2 = [Event.checkImage, Event.pullImage] := by
  unfold check_docker_image_exists
  split
  · split
    · exact Or.inl rfl
    · exact Or.inr rfl
  · exact Or.inl rfl

theorem generateShape_not_mem_img_trace (env : Env) :
    Event.generateShape ∉ (check_docker_image_exists env).2 := by
  rcases img_trace_cases env with h | h <;> simp [h]

theorem run_cases (env : Env) (fs : FS) (d input : FsPath) :
    (run env fs d input).1 = RunOutcome.sysExit 1 ∨
    (∃ e, (run env fs d input).1 = RunOutcome.raised e) ∨
    (∃ out, (run env fs d input).1 = RunOutcome.success out) := by
  simp only [run]
  split
  · exact Or.inl rfl
  · split
    · exact Or.inl rfl
    · split
      · exact Or.inr (Or.inl ⟨_, rfl⟩)
      · split
        · exact Or.inr (Or.inl ⟨_, rfl⟩)
        · exact Or.inr (Or.inr ⟨_, rfl⟩)

/-! ### Claim theorems -/

/-- Claim C2: whenever the runtime-version check fails, `run` performs no
subsequent step (its trace is exactly the Docker check), leaves the
filesystem untouched, and the process exit code is nonzero (1). -/
theorem C2_docker_check_failure_aborts (env : Env) (fs : FS)
    (d input : FsPath) (h : env.dockerVersionOk = false) :
    run env fs d input = (RunOutcome.sysExit 1, [Event.checkDocker], fs) ∧
    (main_normal env fs d input).1 = 1 := by
  have hrun : run env fs d input =
      (RunOutcome.sysExit 1, [Event.checkDocker], fs) := by
    simp [run, check_docker_available, h]
  exact ⟨hrun, by simp [main_normal, hrun]⟩

/-- Witness for C2 at a concrete environment with Docker unavailable. -/
theorem C2_witness :
    run ⟨false, true, true, "abc", true, true, true, "m", true, fun _ => rfl⟩ ⟨[], []⟩
        ["ws"] ["pic.jpg"] =
      (RunOutcome.sysExit 1, [Event.checkDocker], ⟨[], []⟩) ∧
    (main_normal ⟨false, true, true, "abc", true, true, true, "m", true, fun _ => rfl⟩ ⟨[], []⟩
        ["ws"] ["pic.jpg"]).1 = 1 :=
  C2_docker_check_failure_aborts _ _ _ _ rfl

/-- Claim C4: with the image absent from the local listing and the remote
fetch failing, `run` aborts right after the image-resolution step with
`sys.exit(1)`: the trace stops at the pull, the workspace-preparation step
is never reached, the filesystem is unchanged, and the process exits 1. -/
theorem C4_pull_failure_aborts_before_workspace (env : Env) (fs : FS)
    (d input : FsPath) (h1 : env.dockerVersionOk = true)
    (h2 : env.imagesCmdOk = true)
    (h3 : strippedNonempty env.imagesStdout = false)
    (h4 : env.pullOk = false) :
    run env fs d input =
      (RunOutcome.sysExit 1,
        [Event.checkDocker, Event.checkGpu, Event.checkImage,
          Event.pullImage], fs) ∧
    Event.setupDir ∉ (run env fs d input).2.1 ∧
    (run env fs d input).2.2 = fs ∧
    (main_normal env fs d input).1 = 1 := by
  have hrun : run env fs d input =
      (RunOutcome.sysExit 1,
        [Event.checkDocker, Event.checkGpu, Event.checkImage,
          Event.pullImage], fs) := by
    simp [run, check_docker_available, check_docker_image_exists,
      pull_docker_image, h1, h2, h3, h4]
  refine ⟨hrun, ?_, ?_, ?_⟩ <;> simp [hrun, main_normal]

/-- Witness for C4: Docker present, listing succeeds but is empty, pull
fails, on an empty filesystem. -/
theorem C4_witness :
    run ⟨true, true, true, "", false, true, true, "m", true, fun _ => rfl⟩ ⟨[], []⟩
        ["ws"] ["pic.jpg"] =
      (RunOutcome.sysExit 1,
        [Event.checkDocker, Event.checkGpu, Event.checkImage,
          Event.pullImage], ⟨[], []⟩) ∧
    Event.setupDir ∉ (run ⟨true, true, true, "", false, true, true, "m", true, fun _ => rfl⟩
        ⟨[], []⟩ ["ws"] ["pic.jpg"]).2.1 ∧
    (run ⟨true, true, true, "", false, true, true, "m", true, fun _ => rfl⟩ ⟨[], []⟩
        ["ws"] ["pic.jpg"]).2.2 = ⟨[], []⟩ ∧
    (main_normal ⟨true, true, true, "", false, true, true, "m", true, fun _ => rfl⟩ ⟨[], []⟩
        ["ws"] ["pic.jpg"]).1 = 1 :=
  C4_pull_failure_aborts_before_workspace _ _ _ _ rfl rfl (by decide) rfl

/-- Claim C7: workspace preparation creates the directory together with
every missing parent, leaves the files untouched, and is idempotent:
a second application is the identity. -/
theorem C7_setup_idempotent (fs : FS) (d : FsPath) (h : d ≠ []) :
    d ∈ (setup_data_directory fs d).dirs ∧
    (∀ p ∈ ancestors d, p ∈ (setup_data_directory fs d).dirs) ∧
    (setup_data_directory fs d).files = fs.files ∧
    setup_data_directory (setup_data_directory fs d) d =
      setup_data_directory fs d :=
  ⟨ancestors_sub_setup_dirs fs d (self_mem_ancestors h),
    fun _ hp => ancestors_sub_setup_dirs fs d hp, rfl, setup_idem fs d⟩

/-- Witness for C7 on a nested path over an empty filesystem. -/
theorem C7_witness :
    ["home", "user", "hunyuan_data"] ∈
      (setup_data_directory ⟨[], []⟩ ["home", "user", "hunyuan_data"]).dirs ∧
    (∀ p ∈ ancestors ["home", "user", "hunyuan_data"],
      p ∈ (setup_data_directory ⟨[], []⟩ ["home", "user", "hunyuan_data"]).dirs) ∧
    (setup_data_directory ⟨[], []⟩ ["home", "user", "hunyuan_data"]).files =
      (⟨[], []⟩ : FS).files ∧
    setup_data_directory
        (setup_data_directory ⟨[], []⟩ ["home", "user", "hunyuan_data"])
        ["home", "user", "hunyuan_data"] =
      setup_data_directory ⟨[], []⟩ ["home", "user", "hunyuan_data"] :=
  C7_setup_idempotent _ _ (by decide)

/-- Claim C8: a test-mode invocation never performs the container-execution
step, for every combination of check outcomes and every filesystem. -/
theorem C8_test_mode_never_generates (env : Env) (fs : FS)
    (d input : FsPath) :
    Event.generateShape ∉ (main_test env fs d input).2.1 := by
  cases hb : env.dockerBinaryPresent
  · simp [main_test, hb]
  · rcases img_trace_cases env with hh | hh <;> simp [main_test, hb, hh]

/-- Counterexample to claim C9 as stated: with the `docker` binary absent
(all checks failing), the image-listing call in test mode raises an
uncaught FileNotFoundError, so the process exits 1 — not 0 — and the
workspace directory is never created. -/
theorem C9_counterexample :
    ¬ ((main_test
        ⟨false, false, false, "", false, false, false, "", false,
          fun h => Bool.noConfusion h⟩
        ⟨[], []⟩ ["ws"] ["pic.jpg"]).1 = 0 ∧
      ["ws"] ∈ (main_test
        ⟨false, false, false, "", false, false, false, "", false,
          fun h => Bool.noConfusion h⟩
        ⟨[], []⟩ ["ws"] ["pic.jpg"]).2.2.dirs) := by
  decide

/-- Claim C9, amended: provided the `docker` binary is present (so the
uncaught FileNotFoundError of the image-listing call cannot occur), a
test-mode invocation exits with code 0 regardless of the outcomes of the
Docker-version, image and input checks, and it always creates the
workspace directory. -/
theorem C9_test_mode_exit_zero (env : Env) (fs : FS) (d input : FsPath)
    (h : d ≠ []) (hbin : env.dockerBinaryPresent = true) :
    (main_test env fs d input).1 = 0 ∧
    d ∈ (main_test env fs d input).2.2.dirs := by
  constructor
  · simp [main_test, hbin]
  · simpa [main_test, hbin] using
      ancestors_sub_setup_dirs fs d (self_mem_ancestors h)

/-- Witness for C9: the binary present but every check failing, yet exit 0
and the workspace dir created. -/
theorem C9_witness :
    (main_test ⟨false, false, false, "", false, false, false, "", true, fun _ => rfl⟩ ⟨[], []⟩
        ["ws"] ["pic.jpg"]).1 = 0 ∧
    ["ws"] ∈ (main_test ⟨false, false, false, "", false, false, false, "", true, fun _ => rfl⟩
        ⟨[], []⟩ ["ws"] ["pic.jpg"]).2.2.dirs :=
  C9_test_mode_exit_zero _ _ _ _ (by decide) rfl

/-- Claim C10: when the local-image listing command itself exits nonzero,
image resolution returns false without attempting the pull; the pull
fallback is attempted exactly when the listing succeeds with empty
(stripped) output. -/
theorem C10_listing_failure_no_pull (env : Env) :
    (env.imagesCmdOk = false →
      check_docker_image_exists env = (false, [Event.checkImage])) ∧
    (Event.pullImage ∈ (check_docker_image_exists env).2 ↔
      env.imagesCmdOk = true ∧
        strippedNonempty env.imagesStdout = false) := by
  constructor
  · intro h
    simp [check_docker_image_exists, h]
  · unfold check_docker_image_exists
    split
    · split
      · simp_all
      · simp_all
    · simp_all

/-- Witness for C10 at an environment whose listing command fails. -/
theorem C10_witness :
    check_docker_image_exists ⟨true, true, false, "id", true, true, true, "m", true, fun _ => rfl⟩ =
      (false, [Event.checkImage]) ∧
    ¬ Event.pullImage ∈
      (check_docker_image_exists
        ⟨true, true, false, "id", true, true, true, "m", true, fun _ => rfl⟩).2 :=
  ⟨(C10_listing_failure_no_pull _).1 rfl,
    fun h => by
      have := (C10_listing_failure_no_pull
        ⟨true, true, false, "id", true, true, true, "m", true, fun _ => rfl⟩).2.1 h
      simp_all⟩

/-- Claim C5: a non-test invocation exits with code 0 exactly when the
full run succeeds, and with code 1 on every fatal failure (`sys.exit(1)`
from a failed check, or any exception raised during the run). -/
theorem C5_exit_codes (env : Env) (fs : FS) (d input : FsPath) :
    ((main_normal env fs d input).1 = 0 ∨
      (main_normal env fs d input).1 = 1) ∧
    ((main_normal env fs d input).1 = 0 ↔
      ∃ out, (run env fs d input).1 = RunOutcome.success out) := by
  rcases run_cases env fs d input with h | ⟨e, h⟩ | ⟨out, h⟩ <;>
    rcases hr : run env fs d input with ⟨o, tr, fs'⟩ <;>
      rw [hr] at h <;> simp at h <;> subst h <;>
        simp [main_normal, hr]

/-- Claim C6: staging an existing source file copies its contents (bytes
together with metadata) to the fixed workspace name `input.png`, whatever
the source's name or extension, and returns the staged path
`data_dir / input.png`. -/
theorem C6_staging_copies (fs : FS) (d input : FsPath) (c : String)
    (h : lookupFile fs.files input = some c) :
    ∃ fs' : FS,
      copy_input_image fs d input = Except.ok (fs', d ++ ["input.png"]) ∧
      lookupFile fs'.files (d ++ ["input.png"]) = some c ∧
      fs'.dirs = fs.dirs := by
  refine ⟨{ fs with files := setFile fs.files (d ++ ["input.png"]) c },
    ?_, ?_, rfl⟩
  · simp [copy_input_image, path_exists, h]
  · exact lookup_setFile_self _ _ _

/-- Witness for C6: staging a concrete `photo.jpg` with known contents. -/
theorem C6_witness :
    ∃ fs' : FS,
      copy_input_image ⟨[(["photo.jpg"], "BYTES")], []⟩ ["ws"] ["photo.jpg"] =
        Except.ok (fs', ["ws"] ++ ["input.png"]) ∧
      lookupFile fs'.files (["ws"] ++ ["input.png"]) = some "BYTES" ∧
      fs'.dirs = (⟨[(["photo.jpg"], "BYTES")], []⟩ : FS).dirs :=
  C6_staging_copies _ _ _ _ (by decide)

/-- Claim C3: when the input path does not exist at staging time,
`copy_input_image` raises FileNotFoundError, the run never reaches the
container-execution step, and the process exits 1. -/
theorem C3_missing_input_aborts (env : Env) (fs : FS) (d input : FsPath)
    (hmiss : path_exists (setup_data_directory fs d) input = false)
    (hdv : env.dockerVersionOk = true)
    (himg : (check_docker_image_exists env).1 = true) :
    (∀ fs' : FS, path_exists fs' input = false →
      copy_input_image fs' d input = Except.error PyError.fileNotFound) ∧
    (run env fs d input).1 = RunOutcome.raised PyError.fileNotFound ∧
    Event.generateShape ∉ (run env fs d input).2.1 ∧
    (main_normal env fs d input).1 = 1 := by
  have hcopy : ∀ fs' : FS, path_exists fs' input = false →
      copy_input_image fs' d input = Except.error PyError.fileNotFound := by
    intro fs' h
    simp [copy_input_image, h]
  have hrun : run env fs d input =
      (RunOutcome.raised PyError.fileNotFound,
        [Event.checkDocker, Event.checkGpu] ++
            (check_docker_image_exists env).2 ++
          [Event.setupDir, Event.copyInput],
        setup_data_directory fs d) := by
    simp [run, check_docker_available, hdv, himg, hcopy _ hmiss]
  refine ⟨hcopy, by simp [hrun], ?_, by simp [main_normal, hrun]⟩
  rcases img_trace_cases env with hh | hh <;> simp [hrun, hh]

/-- Witness for C3: Docker and image available, input `nope.png` absent
from an empty filesystem. -/
theorem C3_witness :
    (run ⟨true, true, true, "imgid", true, true, true, "m", true, fun _ => rfl⟩ ⟨[], []⟩
        ["ws"] ["nope.png"]).1 = RunOutcome.raised PyError.fileNotFound ∧
    Event.generateShape ∉
      (run ⟨true, true, true, "imgid", true, true, true, "m", true, fun _ => rfl⟩ ⟨[], []⟩
        ["ws"] ["nope.png"]).2.1 ∧
    (main_normal ⟨true, true, true, "imgid", true, true, true, "m", true, fun _ => rfl⟩ ⟨[], []⟩
        ["ws"] ["nope.png"]).1 = 1 :=
  (C3_missing_input_aborts _ _ _ _ (by decide) rfl (by decide)).2

/-- Claim C1: when the container exits 0 but `output_shape.glb` is absent
from the workspace afterwards, `generate_shape` raises the
RuntimeError("Output file was not created") failure — a constructor
distinct from the CalledProcessError of a nonzero container exit — and
the process exits with the nonzero code 1. -/
theorem C1_silent_failure_distinct (env : Env) (fs : FS) (d input : FsPath)
    (c : String)
    (hz : env.containerExitZero = true) (hoc : env.outputCreated = false)
    (hdv : env.dockerVersionOk = true)
    (himg : (check_docker_image_exists env).1 = true)
    (hin : lookupFile fs.files input = some c)
    (hof : lookupFile fs.files (output_path d) = none)
    (hod : output_path d ∉ fs.dirs) :
    (∀ fs' : FS, path_exists fs' (output_path d) = false →
      (generate_shape env fs' d).2 =
        Except.error PyError.runtimeErrorOutputMissing) ∧
    PyError.runtimeErrorOutputMissing ≠ PyError.calledProcessError ∧
    (run env fs d input).1 =
      RunOutcome.raised PyError.runtimeErrorOutputMissing ∧
    (main_normal env fs d input).1 = 1 := by
  have hgen : ∀ fs' : FS, path_exists fs' (output_path d) = false →
      (generate_shape env fs' d).2 =
        Except.error PyError.runtimeErrorOutputMissing := by
    intro fs' h
    simp [generate_shape, hz, hoc, h]
  have hin1 : lookupFile (setup_data_directory fs d).files input = some c := by
    simpa [setup_files] using hin
  have hcopy : copy_input_image (setup_data_directory fs d) d input =
      Except.ok
        (⟨setFile (setup_data_directory fs d).files (d ++ ["input.png"]) c,
          (setup_data_directory fs d).dirs⟩, d ++ ["input.png"]) := by
    simp [copy_input_image, path_exists, hin1, setFile]
  have hout1 : path_exists (setup_data_directory fs d) (output_path d) =
      false := by
    have hanc : output_path d ∉ ancestors d := by
      intro hmem
      have hlen := mem_ancestors_length hmem
      simp [output_path] at hlen
    have hdir : output_path d ∉ (setup_data_directory fs d).dirs := by
      rw [mem_setup_dirs]
      rintro (h | h)
      · exact hod h
      · exact hanc h
    simp [path_exists, setup_files, hof, hdir]
  have hne : (d ++ ["input.png"] : FsPath) ≠ output_path d := by
    intro h
    have h2 := List.append_cancel_left (h.trans rfl : d ++ ["input.png"] =
      d ++ ["output_shape.glb"])
    exact absurd h2 (by decide)
  have hout2 : path_exists
      ⟨setFile (setup_data_directory fs d).files (d ++ ["input.png"]) c,
        (setup_data_directory fs d).dirs⟩ (output_path d) = false := by
    simp only [path_exists] at hout1 ⊢
    rwa [lookup_setFile_ne _ _ hne]
  rcases hgs : generate_shape env
      ⟨setFile (setup_data_directory fs d).files (d ++ ["input.png"]) c,
        (setup_data_directory fs d).dirs⟩ d with ⟨fs3, r⟩
  have hr : r = Except.error PyError.runtimeErrorOutputMissing := by
    have h2 := hgen _ hout2
    rw [hgs] at h2
    exact h2
  subst hr
  have hrun : (run env fs d input).1 =
      RunOutcome.raised PyError.runtimeErrorOutputMissing := by
    simp [run, check_docker_available, hdv, himg, hcopy, hgs]
  refine ⟨hgen, by simp, hrun, ?_⟩
  rcases hfull : run env fs d input with ⟨o, tr, fs4⟩
  rw [hfull] at hrun
  simp at hrun
  subst hrun
  simp [main_normal, hfull]

/-- Witness for C1: Docker and image available, input present, container
exits 0 without writing the artifact; the run raises the output-missing
RuntimeError and exits 1. -/
theorem C1_witness :
    PyError.runtimeErrorOutputMissing ≠ PyError.calledProcessError ∧
    (run ⟨true, true, true, "imgid", true, true, false, "", true, fun _ => rfl⟩
        ⟨[(["photo.jpg"], "BYTES")], []⟩ ["ws"] ["photo.jpg"]).1 =
      RunOutcome.raised PyError.runtimeErrorOutputMissing ∧
    (main_normal ⟨true, true, true, "imgid", true, true, false, "", true, fun _ => rfl⟩
        ⟨[(["photo.jpg"], "BYTES")], []⟩ ["ws"] ["photo.jpg"]).1 = 1 :=
  (C1_silent_failure_distinct _ _ _ _ "BYTES" rfl rfl rfl (by decide)
    (by decide) (by decide) (by decide)).2

end Hunyuan3D
